import Mathlib

/-!
# SCHC Advisor — verification of the hybrid estimation layer

Shallow embedding of `src/proj_01/streamlit_SCHC.py`: the reference-data
model, the aggregation helpers (`baseline_demand`, `compute_lane_stats`),
the two estimation functions (`predict_demand_and_risk`, `estimate_lane`),
the decision rule (`order_now`, `risk_flag`) and the carrier-comparison
loop.  Numeric values are modelled as rationals; the opaque pickled
predictors are modelled as optional functions from the feature rows the
script builds.
-/

namespace SCHC

/-- A row of `supply_chain_shipments.csv`. -/
structure ShipmentRecord where
  Origin : String
  Destination : String
  Carrier : String
  ServiceLevel : String
  Distance : ℚ
  Weight : ℚ
  Stops : ℕ
  ShipmentCost : ℚ
  OnTimeDelivery : Bool
  deriving Repr, DecidableEq

/-- A row of `healthcare_demand.csv`. -/
structure DemandRecord where
  Hospital : String
  Region : String
  Medicine : String
  Month : ℕ
  Inventory : ℚ
  LeadTimeDays : ℚ
  Demand : ℚ
  deriving Repr, DecidableEq

/-- A row of the (derived or loaded) lane-statistics table. -/
structure LaneStat where
  Origin : String
  Destination : String
  Carrier : String
  ServiceLevel : String
  on_time_prob : ℚ
  est_cost : ℚ
  avg_dist : ℚ
  n : ℕ
  deriving Repr, DecidableEq

/-- The feature row the script builds for the healthcare models
(`x_reg` / `x_cls` in `predict_demand_and_risk`). -/
structure HCFeatures where
  Hospital : String
  Region : String
  Medicine : String
  Month : ℕ
  Inventory : ℚ
  LeadTimeDays : ℚ
  deriving Repr, DecidableEq

/-- The feature row the script builds for the supply-chain models
(`x_sc` in `estimate_lane`). -/
structure SCFeatures where
  Origin : String
  Destination : String
  Carrier : String
  ServiceLevel : String
  Distance : ℚ
  Weight : ℚ
  Stops : ℕ
  deriving Repr, DecidableEq

/-- The model registry returned by `load_models`: each slot is possibly
absent (`joblib` load failure yields `None`).  A present regressor maps a
feature row to a scalar; a present classifier maps a feature row to the
probability assigned to the positive class (`predict_proba(...)[0,1]`). -/
structure Models where
  sc_on_time : Option (SCFeatures → ℚ)
  sc_cost : Option (SCFeatures → ℚ)
  hc_demand : Option (HCFeatures → ℚ)
  hc_risk : Option (HCFeatures → ℚ)

/-- pandas `Series.mean` on a list of rationals (sum divided by length;
only applied to the same series the script takes means of). -/
def mean (xs : List ℚ) : ℚ := xs.sum / xs.length

/-- One row of the `groupby(["Hospital","Medicine","Month"])` aggregation
`baseline_demand` produces. -/
structure BaselineRow where
  Hospital : String
  Medicine : String
  Month : ℕ
  pred_monthly_demand : ℚ
  deriving Repr, DecidableEq

/-- The records of `hc_df` belonging to one (Hospital, Medicine, Month)
group key. -/
def demandGroup (hc_df : List DemandRecord) (k : String × String × ℕ) :
    List DemandRecord :=
  hc_df.filter fun r =>
    r.Hospital == k.1 && r.Medicine == k.2.1 && r.Month == k.2.2

/-- `baseline_demand(hc_df)`: group by (Hospital, Medicine, Month) and
aggregate the mean Demand as `pred_monthly_demand`.  One row per distinct
key occurring in the data. -/
def baseline_demand (hc_df : List DemandRecord) : List BaselineRow :=
  ((hc_df.map fun r => (r.Hospital, r.Medicine, r.Month)).dedup).map fun k =>
    ⟨k.1, k.2.1, k.2.2, mean ((demandGroup hc_df k).map DemandRecord.Demand)⟩

/-- The shipment records belonging to one
(Origin, Destination, Carrier, ServiceLevel) lane key. -/
def laneGroup (sc_shipments : List ShipmentRecord)
    (k : String × String × String × String) : List ShipmentRecord :=
  sc_shipments.filter fun s =>
    s.Origin == k.1 && s.Destination == k.2.1 && s.Carrier == k.2.2.1 &&
      s.ServiceLevel == k.2.2.2

/-- `compute_lane_stats(sc_shipments)`: group by the four-part lane key
and aggregate mean OnTimeDelivery, mean ShipmentCost, mean Distance and
the group size. -/
def compute_lane_stats (sc_shipments : List ShipmentRecord) : List LaneStat :=
  ((sc_shipments.map fun s =>
      (s.Origin, s.Destination, s.Carrier, s.ServiceLevel)).dedup).map fun k =>
    let g := laneGroup sc_shipments k
    ⟨k.1, k.2.1, k.2.2.1, k.2.2.2,
      mean (g.map fun s => if s.OnTimeDelivery then (1 : ℚ) else 0),
      mean (g.map ShipmentRecord.ShipmentCost),
      mean (g.map ShipmentRecord.Distance),
      g.length⟩

/-- Region lookup at the top of `predict_demand_and_risk`: the Region of
the first record of the hospital, defaulting to `"MW"` when the hospital
is absent from the demand data. -/
def resolve_region (hc_df : List DemandRecord) (hospital : String) : String :=
  (((hc_df.find? fun r => r.Hospital == hospital).map DemandRecord.Region).getD "MW")

/-- `predict_demand_and_risk(hospital, medicine, month, current_inventory,
lead_time_days)`, returning
(demand_pred, shortage_prob, buffer_need, inventory_gap). -/
def predict_demand_and_risk (models : Models) (hc_df : List DemandRecord)
    (hospital medicine : String) (month : ℕ)
    (current_inventory lead_time_days : ℚ) : ℚ × ℚ × ℚ × ℚ :=
  let region := resolve_region hc_df hospital
  let demand_pred :=
    match models.hc_demand with
    | some f => f ⟨hospital, region, medicine, month, current_inventory, lead_time_days⟩
    | none =>
      match (baseline_demand hc_df).find? (fun b =>
          b.Hospital == hospital && b.Medicine == medicine && b.Month == month) with
      | some row => row.pred_monthly_demand
      | none =>
        mean ((hc_df.filter fun r => r.Medicine == medicine).map DemandRecord.Demand)
  let shortage_prob :=
    match models.hc_risk with
    | some g => g ⟨hospital, region, medicine, month, current_inventory, lead_time_days⟩
    | none =>
      let daily := demand_pred / 30
      let buffer_need := daily * lead_time_days
      if current_inventory < buffer_need then (0.8 : ℚ) else (0.2 : ℚ)
  let daily_need := demand_pred / 30
  let buffer_need := daily_need * lead_time_days
  let inventory_gap := current_inventory - buffer_need
  (demand_pred, shortage_prob, buffer_need, inventory_gap)

/-- The distance-resolution block at the top of `estimate_lane`: a positive
override is used verbatim; otherwise the mean Distance over the shipments
matching (origin, destination) when at least 5 match, else the default 800. -/
def lane_distance (sc_shipments : List ShipmentRecord)
    (origin destination : String) (distance_override : ℚ) : ℚ :=
  if 0 < distance_override then distance_override
  else
    let lane := sc_shipments.filter fun s =>
      s.Origin == origin && s.Destination == destination
    if 5 ≤ lane.length then mean (lane.map ShipmentRecord.Distance)
    else (800 : ℚ)

/-- `estimate_lane(origin, destination, carrier, service, distance_override,
weight, stops)`, returning (distance, on_time_prob, cost_est).  The
`lane_stats` table is the loaded CSV when present, else
`compute_lane_stats sc_shipments`. -/
def estimate_lane (models : Models) (sc_shipments : List ShipmentRecord)
    (lane_stats : List LaneStat) (origin destination carrier service : String)
    (distance_override weight : ℚ) (stops : ℕ) : ℚ × ℚ × ℚ :=
  let distance := lane_distance sc_shipments origin destination distance_override
  match models.sc_on_time, models.sc_cost with
  | some fot, some fc =>
    let x : SCFeatures := ⟨origin, destination, carrier, service, distance, weight, stops⟩
    (distance, fot x, fc x)
  | _, _ =>
    match lane_stats.find? (fun ls =>
        ls.Origin == origin && ls.Destination == destination &&
          ls.Carrier == carrier && ls.ServiceLevel == service) with
    | some row => (distance, row.on_time_prob, row.est_cost)
    | none =>
      let lane_only := sc_shipments.filter fun s =>
        s.Origin == origin && s.Destination == destination
      if lane_only.isEmpty then (distance, (0.65 : ℚ), (300 : ℚ))
      else
        (distance,
          mean (lane_only.map fun s => if s.OnTimeDelivery then (1 : ℚ) else 0),
          mean (lane_only.map ShipmentRecord.ShipmentCost))

/-- `order_now = (shortage_prob >= 0.5) or (inventory_gap < 0)`. -/
def order_now (shortage_prob inventory_gap : ℚ) : Bool :=
  decide ((0.5 : ℚ) ≤ shortage_prob) || decide (inventory_gap < 0)

/-- `risk_flag = on_time_prob < 0.7`. -/
def risk_flag (on_time_prob : ℚ) : Bool :=
  decide (on_time_prob < (0.7 : ℚ))

/-- One row of the carrier-comparison table. -/
structure CompRow where
  Carrier : String
  on_time_probability : ℚ
  estimated_cost : ℚ
  recommendation : String
  deriving Repr, DecidableEq

/-- The body of the carrier-comparison loop: re-run `estimate_lane` per
carrier with origin / destination / service / distance_override / weight /
stops held fixed, carrying the primary recommendation when the row's own
on-time probability reaches 0.7 and the alternate label otherwise. -/
def carrier_rows (models : Models) (sc_shipments : List ShipmentRecord)
    (lane_stats : List LaneStat) (carriers : List String)
    (origin destination service : String) (distance_override weight : ℚ)
    (stops : ℕ) (recommendation : String) : List CompRow :=
  carriers.map fun c =>
    let r := estimate_lane models sc_shipments lane_stats origin destination c
      service distance_override weight stops
    ⟨c, r.2.1, r.2.2,
      if (0.7 : ℚ) ≤ r.2.1 then recommendation else "Consider alternate/expedite"⟩

/-- `comp = pd.DataFrame(rows).sort_values("on_time_probability",
ascending=False)`: the comparison rows sorted by on-time probability
descending. -/
def compare_carriers (models : Models) (sc_shipments : List ShipmentRecord)
    (lane_stats : List LaneStat) (carriers : List String)
    (origin destination service : String) (distance_override weight : ℚ)
    (stops : ℕ) (recommendation : String) : List CompRow :=
  (carrier_rows models sc_shipments lane_stats carriers origin destination
      service distance_override weight stops recommendation).mergeSort
    fun a b => decide (b.on_time_probability ≤ a.on_time_probability)

/-! ## Helper lemmas -/

/-- With no shortage classifier registered, the shortage probability is the
binary threshold on the recomputed buffer need. -/
theorem shortage_branch_none (models : Models) (hc_df : List DemandRecord)
    (hospital medicine : String) (month : ℕ)
    (current_inventory lead_time_days : ℚ) (hrisk : models.hc_risk = none) :
    (predict_demand_and_risk models hc_df hospital medicine month
        current_inventory lead_time_days).2.1 =
      if current_inventory <
          (predict_demand_and_risk models hc_df hospital medicine month
            current_inventory lead_time_days).1 / 30 * lead_time_days
      then (0.8 : ℚ) else (0.2 : ℚ) := by
  simp only [predict_demand_and_risk, hrisk]

/-- The inventory gap returned by `predict_demand_and_risk` is the current
inventory minus the recomputed buffer need. -/
theorem inventory_gap_eq (models : Models) (hc_df : List DemandRecord)
    (hospital medicine : String) (month : ℕ)
    (current_inventory lead_time_days : ℚ) :
    (predict_demand_and_risk models hc_df hospital medicine month
        current_inventory lead_time_days).2.2.2 =
      current_inventory -
        (predict_demand_and_risk models hc_df hospital medicine month
          current_inventory lead_time_days).1 / 30 * lead_time_days := rfl

/-- `find?` returns a given element of the list when the predicate holds of
it and of nothing else. -/
theorem find_eq_some_of_unique {α : Type _} {l : List α} {q : α → Bool}
    {a : α} (ha : a ∈ l) (hq : ∀ x, q x = true ↔ x = a) :
    l.find? q = some a := by
  induction l with
  | nil => simp at ha
  | cons x xs ih =>
    rcases eq_or_ne x a with rfl | hne
    · exact List.find?_cons_of_pos _ ((hq x).mpr rfl)
    · have hqx : ¬ q x = true := fun hc => hne ((hq x).mp hc)
      rw [List.find?_cons_of_neg _ hqx]
      rcases List.mem_cons.mp ha with h | h
      · exact absurd h.symm hne
      · exact ih h

/-- When some record carries the (hospital, medicine, month) key, the
`baseline_demand` lookup finds the aggregated row for that key: the mean
Demand over the matching records. -/
theorem baseline_find_of_mem (hc_df : List DemandRecord)
    (hospital medicine : String) (month : ℕ) (r : DemandRecord)
    (hr : r ∈ hc_df) (h1 : r.Hospital = hospital) (h2 : r.Medicine = medicine)
    (h3 : r.Month = month) :
    (baseline_demand hc_df).find? (fun b =>
        b.Hospital == hospital && b.Medicine == medicine && b.Month == month) =
      some ⟨hospital, medicine, month,
        mean ((demandGroup hc_df (hospital, medicine, month)).map
          DemandRecord.Demand)⟩ := by
  rw [baseline_demand, List.find?_map]
  have hmem : (hospital, medicine, month) ∈
      (hc_df.map fun s => (s.Hospital, s.Medicine, s.Month)).dedup := by
    rw [List.mem_dedup]
    exact List.mem_map.mpr ⟨r, hr, by rw [h1, h2, h3]⟩
  have hq : ∀ k : String × String × ℕ,
      (((fun b : BaselineRow =>
          b.Hospital == hospital && b.Medicine == medicine && b.Month == month) ∘
        fun k : String × String × ℕ =>
          (⟨k.1, k.2.1, k.2.2, mean ((demandGroup hc_df k).map
            DemandRecord.Demand)⟩ : BaselineRow)) k = true) ↔
        k = (hospital, medicine, month) := by
    rintro ⟨a, b, c⟩
    simp [Function.comp, Prod.ext_iff, and_assoc]
  rw [find_eq_some_of_unique hmem hq]
  rfl

/-- When no record carries the (hospital, medicine, month) key, the
`baseline_demand` lookup misses. -/
theorem baseline_find_none (hc_df : List DemandRecord)
    (hospital medicine : String) (month : ℕ)
    (hno : ∀ r ∈ hc_df,
      ¬(r.Hospital = hospital ∧ r.Medicine = medicine ∧ r.Month = month)) :
    (baseline_demand hc_df).find? (fun b =>
        b.Hospital == hospital && b.Medicine == medicine && b.Month == month) =
      none := by
  rw [baseline_demand, List.find?_map, Option.map_eq_none', List.find?_eq_none]
  intro k hk
  obtain ⟨s, hs, hkey⟩ := List.mem_map.mp (List.mem_dedup.mp hk)
  obtain ⟨a, b, c⟩ := k
  simp only [Function.comp, Bool.and_eq_true, beq_iff_eq, not_and]
  intro e12 e3
  obtain ⟨e1, e2⟩ := e12
  obtain ⟨f1, f2, f3⟩ := Prod.mk.injEq .. ▸ hkey
  exact hno s hs ⟨by rw [f1, e1], e2, e3⟩

/-- The mean of a list of nonnegative rationals is nonnegative. -/
theorem mean_nonneg {xs : List ℚ} (h : ∀ x ∈ xs, 0 ≤ x) : 0 ≤ mean xs := by
  unfold mean
  exact div_nonneg (List.sum_nonneg h) (Nat.cast_nonneg _)

/-- The demand prediction is nonnegative when the data's Demand values are
nonnegative and any registered demand predictor only returns nonnegative
values. -/
theorem demand_pred_nonneg (models : Models) (hc_df : List DemandRecord)
    (hospital medicine : String) (month : ℕ)
    (current_inventory lead_time_days : ℚ)
    (hdm : ∀ f, models.hc_demand = some f → ∀ x, 0 ≤ f x)
    (hdata : ∀ r ∈ hc_df, 0 ≤ r.Demand) :
    0 ≤ (predict_demand_and_risk models hc_df hospital medicine month
      current_inventory lead_time_days).1 := by
  obtain ⟨ot, ct, dm, rk⟩ := models
  cases dm with
  | some f =>
    have hf := hdm f rfl
    simp only [predict_demand_and_risk]
    exact hf _
  | none =>
    simp only [predict_demand_and_risk]
    rcases hf : (baseline_demand hc_df).find? (fun b =>
        b.Hospital == hospital && b.Medicine == medicine &&
          b.Month == month) with _ | row
    · simp only [hf]
      apply mean_nonneg
      intro x hx
      obtain ⟨r, hr, rfl⟩ := List.mem_map.mp hx
      exact hdata r (List.mem_of_mem_filter hr)
    · simp only [hf]
      have hmem := List.mem_of_find?_eq_some hf
      obtain ⟨k, hk, hrow⟩ := List.mem_map.mp hmem
      subst hrow
      show 0 ≤ mean ((demandGroup hc_df k).map DemandRecord.Demand)
      apply mean_nonneg
      intro x hx
      obtain ⟨r, hr, rfl⟩ := List.mem_map.mp hx
      exact hdata r (List.mem_of_mem_filter hr)

/-- The shortage probability stays in [0, 1] when any registered shortage
classifier only returns values in [0, 1]; the heuristic branch returns 0.8
or 0.2. -/
theorem shortage_prob_bounds (models : Models) (hc_df : List DemandRecord)
    (hospital medicine : String) (month : ℕ)
    (current_inventory lead_time_days : ℚ)
    (hrk : ∀ g, models.hc_risk = some g → ∀ x, 0 ≤ g x ∧ g x ≤ 1) :
    0 ≤ (predict_demand_and_risk models hc_df hospital medicine month
        current_inventory lead_time_days).2.1 ∧
    (predict_demand_and_risk models hc_df hospital medicine month
        current_inventory lead_time_days).2.1 ≤ 1 := by
  obtain ⟨ot, ct, dm, rk⟩ := models
  cases rk with
  | some g =>
    have hg := hrk g rfl
    simp only [predict_demand_and_risk]
    exact hg _
  | none =>
    rw [shortage_branch_none (Models.mk ot ct dm none) hc_df hospital medicine
      month current_inventory lead_time_days rfl]
    split_ifs <;> norm_num

/-! ## Claim theorems -/

/-- C1: `order_now` is the logical OR of the two signals: it is true iff
`shortage_prob >= 0.5` or `inventory_gap < 0`, and in particular it is true
whenever `inventory_gap < 0`, regardless of `shortage_prob`. -/
theorem order_now_or_of_signals (shortage_prob inventory_gap : ℚ) :
    (order_now shortage_prob inventory_gap = true ↔
      ((0.5 : ℚ) ≤ shortage_prob ∨ inventory_gap < 0)) ∧
    (inventory_gap < 0 → order_now shortage_prob inventory_gap = true) := by
  constructor
  · simp [order_now]
  · intro h
    simp [order_now, h]

/-- C1 witness: at `shortage_prob = 0` and `inventory_gap = -1`, the gap
signal alone forces `order_now`. -/
theorem order_now_or_of_signals_witness :
    ((-1 : ℚ) < 0) ∧ order_now 0 (-1) = true :=
  ⟨by norm_num, (order_now_or_of_signals 0 (-1)).2 (by norm_num)⟩

/-- C2: in every branch, the returned buffer need is
`(demand_pred / 30) * lead_time_days` and the returned inventory gap is
`current_inventory - buffer_need`, both computed from the final
`demand_pred`. -/
theorem buffer_and_gap_from_final_demand (models : Models)
    (hc_df : List DemandRecord) (hospital medicine : String) (month : ℕ)
    (current_inventory lead_time_days : ℚ) :
    (predict_demand_and_risk models hc_df hospital medicine month
        current_inventory lead_time_days).2.2.1 =
      (predict_demand_and_risk models hc_df hospital medicine month
        current_inventory lead_time_days).1 / 30 * lead_time_days ∧
    (predict_demand_and_risk models hc_df hospital medicine month
        current_inventory lead_time_days).2.2.2 =
      current_inventory -
        (predict_demand_and_risk models hc_df hospital medicine month
          current_inventory lead_time_days).1 / 30 * lead_time_days :=
  ⟨rfl, rfl⟩

/-- C3: `risk_flag` is true iff `on_time_prob < 0.7`, and at the boundary
`on_time_prob = 0.7` it is false. -/
theorem risk_flag_iff_strict (p : ℚ) :
    (risk_flag p = true ↔ p < 0.7) ∧ risk_flag 0.7 = false := by
  constructor
  · simp [risk_flag]
  · simp [risk_flag]

/-- C4: demand resolution is a three-tier fallback: a registered predictor's
scalar output; else the exact Demand-Baseline entry for
(hospital, medicine, month), which is the mean Demand of the matching
records; else the mean Demand across all records for the medicine alone. -/
theorem demand_three_tier_fallback (models : Models)
    (hc_df : List DemandRecord) (hospital medicine : String) (month : ℕ)
    (current_inventory lead_time_days : ℚ) :
    (∀ f, models.hc_demand = some f →
      (predict_demand_and_risk models hc_df hospital medicine month
          current_inventory lead_time_days).1 =
        f ⟨hospital, resolve_region hc_df hospital, medicine, month,
          current_inventory, lead_time_days⟩) ∧
    (models.hc_demand = none →
      (∃ r ∈ hc_df,
        r.Hospital = hospital ∧ r.Medicine = medicine ∧ r.Month = month) →
      (predict_demand_and_risk models hc_df hospital medicine month
          current_inventory lead_time_days).1 =
        mean ((demandGroup hc_df (hospital, medicine, month)).map
          DemandRecord.Demand)) ∧
    (models.hc_demand = none →
      (∀ r ∈ hc_df,
        ¬(r.Hospital = hospital ∧ r.Medicine = medicine ∧ r.Month = month)) →
      (predict_demand_and_risk models hc_df hospital medicine month
          current_inventory lead_time_days).1 =
        mean ((hc_df.filter fun r => r.Medicine == medicine).map
          DemandRecord.Demand)) := by
  refine ⟨?_, ?_, ?_⟩
  · intro f hf
    simp only [predict_demand_and_risk, hf]
  · rintro hn ⟨r, hr, h1, h2, h3⟩
    have hb := baseline_find_of_mem hc_df hospital medicine month r hr h1 h2 h3
    simp only [predict_demand_and_risk, hn, hb]
  · intro hn hno
    have hb := baseline_find_none hc_df hospital medicine month hno
    simp only [predict_demand_and_risk, hn, hb]

/-- C4 witness: with no demand predictor and a single record at key
("H", "M", 3), the baseline tier applies and returns its Demand value. -/
theorem demand_three_tier_fallback_witness :
    (Models.mk none none none none).hc_demand = none ∧
    (predict_demand_and_risk ⟨none, none, none, none⟩
        [⟨"H", "R", "M", 3, 0, 0, 12⟩] "H" "M" 3 0 7).1 = 12 := by
  refine ⟨rfl, ?_⟩
  have h := (demand_three_tier_fallback ⟨none, none, none, none⟩
      [⟨"H", "R", "M", 3, 0, 0, 12⟩] "H" "M" 3 0 7).2.1 rfl
      ⟨⟨"H", "R", "M", 3, 0, 0, 12⟩, by simp, rfl, rfl, rfl⟩
  rw [h]
  norm_num [demandGroup, mean]

/-- C5: with no shortage classifier registered, `shortage_prob` is exactly
0.8 when `current_inventory < (demand_pred / 30) * lead_time_days` and
exactly 0.2 otherwise. -/
theorem shortage_prob_binary_threshold (models : Models)
    (hc_df : List DemandRecord) (hospital medicine : String) (month : ℕ)
    (current_inventory lead_time_days : ℚ) (hrisk : models.hc_risk = none) :
    (predict_demand_and_risk models hc_df hospital medicine month
        current_inventory lead_time_days).2.1 =
      if current_inventory <
          (predict_demand_and_risk models hc_df hospital medicine month
            current_inventory lead_time_days).1 / 30 * lead_time_days
      then (0.8 : ℚ) else (0.2 : ℚ) :=
  shortage_branch_none models hc_df hospital medicine month
    current_inventory lead_time_days hrisk

/-- C5 witness: with all four model slots empty and the single-record data
set, the heuristic picks 0.2 at inventory 150, lead time 7, demand 300. -/
theorem shortage_prob_binary_threshold_witness :
    (Models.mk none none none none).hc_risk = none ∧
    (predict_demand_and_risk ⟨none, none, none, none⟩
        [⟨"GenHosp", "NE", "InsulinX", 6, 150, 7, 300⟩]
        "GenHosp" "InsulinX" 6 150 7).2.1 = (0.2 : ℚ) := by
  refine ⟨rfl, ?_⟩
  have h := shortage_prob_binary_threshold ⟨none, none, none, none⟩
    [⟨"GenHosp", "NE", "InsulinX", 6, 150, 7, 300⟩]
    "GenHosp" "InsulinX" 6 150 7 rfl
  have h1 : (predict_demand_and_risk ⟨none, none, none, none⟩
      [⟨"GenHosp", "NE", "InsulinX", 6, 150, 7, 300⟩]
      "GenHosp" "InsulinX" 6 150 7).1 = 300 := by
    norm_num [predict_demand_and_risk, baseline_demand, demandGroup,
      resolve_region, mean, List.dedup]
  rw [h, h1, if_neg (by norm_num)]

/-- The distance component of `estimate_lane` is the resolved lane
distance, whichever on-time/cost branch runs afterwards. -/
theorem estimate_lane_fst (models : Models) (sc_shipments : List ShipmentRecord)
    (lane_stats : List LaneStat) (origin destination carrier service : String)
    (distance_override weight : ℚ) (stops : ℕ) :
    (estimate_lane models sc_shipments lane_stats origin destination carrier
        service distance_override weight stops).1 =
      lane_distance sc_shipments origin destination distance_override := by
  obtain ⟨ot, ct, dm, rk⟩ := models
  cases ot <;> cases ct <;> simp only [estimate_lane] <;>
    first
      | rfl
      | (split <;> first | rfl | (split <;> rfl))

/-- C6: a positive `distance_override` is used verbatim; otherwise the
distance is the mean Distance over shipments matching (origin, destination)
when at least 5 match, and the default 800 when fewer than 5 match — in
particular, with exactly 4 matching records and a zero override the result
is 800. -/
theorem estimate_lane_distance_resolution (models : Models)
    (sc_shipments : List ShipmentRecord) (lane_stats : List LaneStat)
    (origin destination carrier service : String)
    (distance_override weight : ℚ) (stops : ℕ) :
    ((estimate_lane models sc_shipments lane_stats origin destination carrier
        service distance_override weight stops).1 =
      if 0 < distance_override then distance_override
      else if 5 ≤ (sc_shipments.filter fun s =>
            s.Origin == origin && s.Destination == destination).length
        then mean ((sc_shipments.filter fun s =>
            s.Origin == origin && s.Destination == destination).map
          ShipmentRecord.Distance)
        else (800 : ℚ)) ∧
    (distance_override = 0 →
      (sc_shipments.filter fun s =>
        s.Origin == origin && s.Destination == destination).length = 4 →
      (estimate_lane models sc_shipments lane_stats origin destination carrier
        service distance_override weight stops).1 = 800) := by
  have hfst := estimate_lane_fst models sc_shipments lane_stats origin
    destination carrier service distance_override weight stops
  refine ⟨?_, ?_⟩
  · rw [hfst]
    simp only [lane_distance]
  · intro h0 h4
    rw [hfst]
    simp only [lane_distance, h0, h4]
    norm_num

/-- C6 witness: four shipments on lane ("A", "B") and a zero override give
the default distance 800. -/
theorem estimate_lane_distance_resolution_witness :
    (0 : ℚ) = 0 ∧
    (([⟨"A", "B", "UPS", "STD", 100, 1, 1, 50, true⟩,
        ⟨"A", "B", "UPS", "STD", 120, 1, 1, 52, true⟩,
        ⟨"A", "B", "FedEx", "STD", 110, 1, 1, 51, false⟩,
        ⟨"A", "B", "FedEx", "EXP", 130, 1, 1, 53, true⟩] :
      List ShipmentRecord).filter fun s =>
        s.Origin == "A" && s.Destination == "B").length = 4 ∧
    (estimate_lane ⟨none, none, none, none⟩
        [⟨"A", "B", "UPS", "STD", 100, 1, 1, 50, true⟩,
          ⟨"A", "B", "UPS", "STD", 120, 1, 1, 52, true⟩,
          ⟨"A", "B", "FedEx", "STD", 110, 1, 1, 51, false⟩,
          ⟨"A", "B", "FedEx", "EXP", 130, 1, 1, 53, true⟩]
        [] "A" "B" "UPS" "STD" 0 1 1).1 = 800 := by
  refine ⟨rfl, by simp, ?_⟩
  exact (estimate_lane_distance_resolution ⟨none, none, none, none⟩
    [⟨"A", "B", "UPS", "STD", 100, 1, 1, 50, true⟩,
      ⟨"A", "B", "UPS", "STD", 120, 1, 1, 52, true⟩,
      ⟨"A", "B", "FedEx", "STD", 110, 1, 1, 51, false⟩,
      ⟨"A", "B", "FedEx", "EXP", 130, 1, 1, 53, true⟩]
    [] "A" "B" "UPS" "STD" 0 1 1).2 rfl (by simp)

/-- C7: in the statistics branch (at least one of the two supply-chain
models missing), a miss on the exact lane-statistics key falls back to the
(origin, destination)-only means over the shipment records, and to exactly
(0.65, 300) when no record matches even that. -/
theorem estimate_lane_stats_fallback (models : Models)
    (sc_shipments : List ShipmentRecord) (lane_stats : List LaneStat)
    (origin destination carrier service : String)
    (distance_override weight : ℚ) (stops : ℕ)
    (hmodels : models.sc_on_time = none ∨ models.sc_cost = none)
    (hmiss : lane_stats.find? (fun ls =>
        ls.Origin == origin && ls.Destination == destination &&
          ls.Carrier == carrier && ls.ServiceLevel == service) = none) :
    (estimate_lane models sc_shipments lane_stats origin destination carrier
        service distance_override weight stops).2 =
      if (sc_shipments.filter fun s =>
          s.Origin == origin && s.Destination == destination).isEmpty
      then ((0.65 : ℚ), (300 : ℚ))
      else (mean ((sc_shipments.filter fun s =>
              s.Origin == origin && s.Destination == destination).map
            fun s => if s.OnTimeDelivery then (1 : ℚ) else 0),
          mean ((sc_shipments.filter fun s =>
              s.Origin == origin && s.Destination == destination).map
            ShipmentRecord.ShipmentCost)) := by
  obtain ⟨ot, ct, dm, rk⟩ := models
  dsimp only at hmodels
  rcases hmodels with h | h
  · subst h
    cases ct <;> (simp only [estimate_lane, hmiss]; split_ifs <;> rfl)
  · subst h
    cases ot <;> (simp only [estimate_lane, hmiss]; split_ifs <;> rfl)

/-- C7 witness: empty shipment data, empty lane statistics and no models
give exactly (0.65, 300). -/
theorem estimate_lane_stats_fallback_witness :
    ((Models.mk none none none none).sc_on_time = none ∨
      (Models.mk none none none none).sc_cost = none) ∧
    (([] : List LaneStat).find? (fun ls =>
        ls.Origin == "A" && ls.Destination == "B" && ls.Carrier == "C" &&
          ls.ServiceLevel == "S") = none) ∧
    (estimate_lane ⟨none, none, none, none⟩ [] [] "A" "B" "C" "S" 0 1 1).2 =
      ((0.65 : ℚ), (300 : ℚ)) := by
  refine ⟨Or.inl rfl, rfl, ?_⟩
  have h := estimate_lane_stats_fallback ⟨none, none, none, none⟩ [] [] "A" "B"
    "C" "S" 0 1 1 (Or.inl rfl) rfl
  simpa using h

/-- C10: with no shortage classifier registered, the heuristic shortage
probability crosses 0.5 exactly when the inventory gap is negative, so
`order_now` holds iff `inventory_gap < 0`. -/
theorem heuristic_order_iff_gap_neg (models : Models)
    (hc_df : List DemandRecord) (hospital medicine : String) (month : ℕ)
    (current_inventory lead_time_days : ℚ) (hrisk : models.hc_risk = none) :
    ((0.5 : ℚ) ≤ (predict_demand_and_risk models hc_df hospital medicine month
        current_inventory lead_time_days).2.1 ↔
      (predict_demand_and_risk models hc_df hospital medicine month
        current_inventory lead_time_days).2.2.2 < 0) ∧
    (order_now
        (predict_demand_and_risk models hc_df hospital medicine month
          current_inventory lead_time_days).2.1
        (predict_demand_and_risk models hc_df hospital medicine month
          current_inventory lead_time_days).2.2.2 = true ↔
      (predict_demand_and_risk models hc_df hospital medicine month
        current_inventory lead_time_days).2.2.2 < 0) := by
  have hs := shortage_branch_none models hc_df hospital medicine month
    current_inventory lead_time_days hrisk
  have hg := inventory_gap_eq models hc_df hospital medicine month
    current_inventory lead_time_days
  have h1 : (0.5 : ℚ) ≤ (predict_demand_and_risk models hc_df hospital medicine
      month current_inventory lead_time_days).2.1 ↔
      (predict_demand_and_risk models hc_df hospital medicine month
        current_inventory lead_time_days).2.2.2 < 0 := by
    rw [hs, hg]
    by_cases h : current_inventory <
        (predict_demand_and_risk models hc_df hospital medicine month
          current_inventory lead_time_days).1 / 30 * lead_time_days
    · rw [if_pos h]
      exact ⟨fun _ => by linarith, fun _ => by norm_num⟩
    · rw [if_neg h]
      exact ⟨fun hc => absurd hc (by norm_num), fun hc => absurd (by linarith) h⟩
  refine ⟨h1, ?_⟩
  simp [order_now, h1]

/-- C10 witness: with no predictors and a single demand record, inventory
50 against demand 300 and lead time 7 gives a negative gap and an order
decision; the equivalence holds there. -/
theorem heuristic_order_iff_gap_neg_witness :
    (Models.mk none none none none).hc_risk = none ∧
    (order_now
        (predict_demand_and_risk ⟨none, none, none, none⟩
          [⟨"GenHosp", "NE", "InsulinX", 6, 50, 7, 300⟩]
          "GenHosp" "InsulinX" 6 50 7).2.1
        (predict_demand_and_risk ⟨none, none, none, none⟩
          [⟨"GenHosp", "NE", "InsulinX", 6, 50, 7, 300⟩]
          "GenHosp" "InsulinX" 6 50 7).2.2.2 = true ↔
      (predict_demand_and_risk ⟨none, none, none, none⟩
        [⟨"GenHosp", "NE", "InsulinX", 6, 50, 7, 300⟩]
        "GenHosp" "InsulinX" 6 50 7).2.2.2 < 0) :=
  ⟨rfl, (heuristic_order_iff_gap_neg ⟨none, none, none, none⟩
      [⟨"GenHosp", "NE", "InsulinX", 6, 50, 7, 300⟩]
      "GenHosp" "InsulinX" 6 50 7 rfl).2⟩

/-- C8 counterexample: the claim fails as stated.  With no predictors, a
single record at the valid key ("H", "M", 1) whose Demand is -10 makes the
statistics branch return demand_pred = -10 < 0. -/
theorem demand_risk_bounds_counterexample :
    ¬ (0 ≤ (predict_demand_and_risk ⟨none, none, none, none⟩
        [⟨"H", "R", "M", 1, 0, 7, -10⟩] "H" "M" 1 0 7).1) := by
  have h1 : (predict_demand_and_risk ⟨none, none, none, none⟩
      [⟨"H", "R", "M", 1, 0, 7, -10⟩] "H" "M" 1 0 7).1 = -10 := by
    norm_num [predict_demand_and_risk, baseline_demand, demandGroup,
      resolve_region, mean, List.dedup]
  rw [h1]
  norm_num

/-- C8 (amended): for valid inputs, provided every Demand value in the data
is nonnegative, any registered demand predictor returns nonnegative values,
and any registered shortage classifier returns values in [0, 1], the
estimation returns demand_pred ≥ 0 and shortage_prob ∈ [0, 1] in every
branch. -/
theorem demand_risk_bounds (models : Models) (hc_df : List DemandRecord)
    (hospital medicine : String) (month : ℕ)
    (current_inventory lead_time_days : ℚ)
    (hdm : ∀ f, models.hc_demand = some f → ∀ x, 0 ≤ f x)
    (hrk : ∀ g, models.hc_risk = some g → ∀ x, 0 ≤ g x ∧ g x ≤ 1)
    (hdata : ∀ r ∈ hc_df, 0 ≤ r.Demand)
    (_hvalid : ∃ r ∈ hc_df, r.Medicine = medicine) :
    0 ≤ (predict_demand_and_risk models hc_df hospital medicine month
        current_inventory lead_time_days).1 ∧
    0 ≤ (predict_demand_and_risk models hc_df hospital medicine month
        current_inventory lead_time_days).2.1 ∧
    (predict_demand_and_risk models hc_df hospital medicine month
        current_inventory lead_time_days).2.1 ≤ 1 :=
  ⟨demand_pred_nonneg models hc_df hospital medicine month current_inventory
      lead_time_days hdm hdata,
    (shortage_prob_bounds models hc_df hospital medicine month
      current_inventory lead_time_days hrk).1,
    (shortage_prob_bounds models hc_df hospital medicine month
      current_inventory lead_time_days hrk).2⟩

/-- C8 witness: with no predictors and one record of Demand 300 at the
valid key, all three bounds hold. -/
theorem demand_risk_bounds_witness :
    0 ≤ (predict_demand_and_risk ⟨none, none, none, none⟩
        [⟨"GenHosp", "NE", "InsulinX", 6, 150, 7, 300⟩]
        "GenHosp" "InsulinX" 6 150 7).1 ∧
    0 ≤ (predict_demand_and_risk ⟨none, none, none, none⟩
        [⟨"GenHosp", "NE", "InsulinX", 6, 150, 7, 300⟩]
        "GenHosp" "InsulinX" 6 150 7).2.1 ∧
    (predict_demand_and_risk ⟨none, none, none, none⟩
        [⟨"GenHosp", "NE", "InsulinX", 6, 150, 7, 300⟩]
        "GenHosp" "InsulinX" 6 150 7).2.1 ≤ 1 :=
  demand_risk_bounds ⟨none, none, none, none⟩
    [⟨"GenHosp", "NE", "InsulinX", 6, 150, 7, 300⟩]
    "GenHosp" "InsulinX" 6 150 7
    (fun f hf => by simp at hf) (fun g hg => by simp at hg)
    (by intro r hr; simp at hr; rw [hr]; norm_num)
    ⟨⟨"GenHosp", "NE", "InsulinX", 6, 150, 7, 300⟩, by simp, rfl⟩

/-- C9: the carrier comparison holds origin, destination, service,
distance override, weight and stops fixed and varies only the carrier: for
N carriers it yields exactly N rows, sorted by on-time probability
descending, each row carrying that carrier's `estimate_lane` outputs and
independently labelled with the primary recommendation when its own
on-time probability reaches 0.7, else the alternate label. -/
theorem carrier_comparison_spec (models : Models)
    (sc_shipments : List ShipmentRecord) (lane_stats : List LaneStat)
    (carriers : List String) (origin destination service : String)
    (distance_override weight : ℚ) (stops : ℕ) (recommendation : String) :
    (compare_carriers models sc_shipments lane_stats carriers origin
        destination service distance_override weight stops
        recommendation).length = carriers.length ∧
    List.Pairwise (fun a b : CompRow =>
        b.on_time_probability ≤ a.on_time_probability)
      (compare_carriers models sc_shipments lane_stats carriers origin
        destination service distance_override weight stops recommendation) ∧
    (∀ row ∈ compare_carriers models sc_shipments lane_stats carriers origin
        destination service distance_override weight stops recommendation,
      row.on_time_probability =
        (estimate_lane models sc_shipments lane_stats origin destination
          row.Carrier service distance_override weight stops).2.1 ∧
      row.estimated_cost =
        (estimate_lane models sc_shipments lane_stats origin destination
          row.Carrier service distance_override weight stops).2.2 ∧
      row.recommendation =
        if (0.7 : ℚ) ≤ row.on_time_probability then recommendation
        else "Consider alternate/expedite") ∧
    (∀ c ∈ carriers,
      ∃ row ∈ compare_carriers models sc_shipments lane_stats carriers origin
        destination service distance_override weight stops recommendation,
        row.Carrier = c) := by
  refine ⟨?_, ?_, ?_, ?_⟩
  · rw [compare_carriers, List.length_mergeSort, carrier_rows,
      List.length_map]
  · refine List.Pairwise.imp ?_ (List.sorted_mergeSort ?_ ?_
      (carrier_rows models sc_shipments lane_stats carriers origin destination
        service distance_override weight stops recommendation))
    · intro a b hab
      exact of_decide_eq_true hab
    · intro a b c hab hbc
      simp only [decide_eq_true_eq] at *
      exact le_trans hbc hab
    · intro a b
      simp only [Bool.or_eq_true, decide_eq_true_eq]
      exact le_total _ _
  · intro row hrow
    rw [compare_carriers, List.mem_mergeSort, carrier_rows] at hrow
    obtain ⟨c, hc, rfl⟩ := List.mem_map.mp hrow
    exact ⟨rfl, rfl, rfl⟩
  · intro c hc
    exact ⟨_, by
        rw [compare_carriers, List.mem_mergeSort, carrier_rows]
        exact List.mem_map_of_mem _ hc,
      rfl⟩

/-- C9 witness: two carriers give a two-row table, and each carrier has a
row. -/
theorem carrier_comparison_spec_witness :
    (compare_carriers ⟨none, none, none, none⟩ [] [] ["X", "Y"] "A" "B" "S"
      0 1 1 "R").length = 2 ∧
    (∃ row ∈ compare_carriers ⟨none, none, none, none⟩ [] [] ["X", "Y"] "A"
      "B" "S" 0 1 1 "R", row.Carrier = "X") :=
  ⟨(carrier_comparison_spec ⟨none, none, none, none⟩ [] [] ["X", "Y"] "A" "B"
      "S" 0 1 1 "R").1,
    (carrier_comparison_spec ⟨none, none, none, none⟩ [] [] ["X", "Y"] "A" "B"
      "S" 0 1 1 "R").2.2.2 "X" (by simp)⟩

end SCHC
